import Mathlib

/-!
# Verification of the eRPC Nexus (src/src/nexus.h)

A shallow embedding of the process-wide Nexus coordinator of the eRPC
runtime.  The repository's `src/src/nexus.h` fully defines the data
types (`bg_work_item_t`, `NexusHook`, `BgThreadCtx`), the in-class
member initializers of `Nexus`, and two inline member functions
(`get_hostname` and `bg_thread_func`).  The bodies of the remaining
member functions (the constructor, `register_hook`, `unregister_hook`,
`register_ops`, `app_tid_exists`) are declared in the header but their
translation unit (nexus.cc) is not part of the given sources; those
bodies are modelled from the specification, and each such definition
says so in its doc comment.

Machine integers: `app_tid` and `req_type` are `uint8_t` in the source;
they are modelled as `Nat` (array indexing and equality are the only
operations performed on them, so no wrap-around arises).  The `double`
drop probability is modelled as `ℚ`; the only operation performed on it
is an order comparison, which is exact.

The constants `kMaxAppTid`, `kMaxReqTypes`, `kMaxBgThreads`,
`kMaxHostnameLen` come from `common.h`, which is not among the given
sources; they are carried as configuration parameters rather than fixed
numerals.
-/

/-- A work item submitted to a background thread (struct bg_work_item_t,
nexus.h lines 15-19).  `session` and `sslot` are opaque pointers in the
source (`Session *`, `Session::sslot_t *`); they are modelled as opaque
numeric handles. -/
structure bg_work_item_t where
  app_tid : Nat
  session : Nat
  sslot : Nat
deriving DecidableEq, Repr

/-- A hook created by a per-thread Rpc and shared with the Nexus
(class NexusHook, nexus.h lines 23-34).  `app_tid` is a `const uint8_t`
set by the constructor.  The two `MtList` queues are modelled as lists
of opaque handles / work items.  `bg_req_list_arr` is an array of
pointers to the per-worker submission queues, filled in by the Nexus;
it is modelled as the list of worker ids the hook has been wired to
(empty until registration wires it). -/
structure NexusHook where
  app_tid : Nat
  sm_pkt_list : List Nat
  bg_resp_list : List bg_work_item_t
  bg_req_list_arr : List Nat
deriving DecidableEq, Repr

/-- The NexusHook constructor (nexus.h line 25): records the app TID,
leaves both queues empty and the per-worker references unwired. -/
def NexusHook.init (app_tid : Nat) : NexusHook :=
  { app_tid := app_tid, sm_pkt_list := [], bg_resp_list := [], bg_req_list_arr := [] }

/-- Compile-time constants of the build (from common.h, absent from the
given sources) together with the constructor arguments of `Nexus`
(nexus.h lines 65-66). -/
structure NexusConfig where
  kMaxAppTid : Nat
  kMaxReqTypes : Nat
  kMaxBgThreads : Nat
  mgmt_udp_port : Nat
  num_bg_threads : Nat
  udp_drop_prob : ℚ
deriving DecidableEq, Repr

/-- Max UDP packet drop probability (nexus.h line 48:
`static constexpr double kMaxUdpDropProb = .95`).  The double literal is
modelled as the rational 95/100; the only use is an order comparison. -/
def kMaxUdpDropProb : ℚ := 95 / 100

/-- The state of a Nexus object (data members of class Nexus, nexus.h
lines 114-139).  `ops_arr` has `kMaxReqTypes` slots; a slot is `none`
when no Ops has been registered for that request type (the C++ array
holds default-constructed `Ops` there).  `reg_hooks_arr` has
`kMaxAppTid + 1` slots, `none` meaning `nullptr`.  The environment
members `freq_ghz`, `hostname` and `sm_sock_fd` are measured from the
machine at construction and are never consulted by any operation under
verification, so they are not carried.  The per-worker `BgThreadCtx`
request queues are modelled separately with the background-thread loop
below. -/
structure NexusState where
  cfg : NexusConfig
  ops_arr : List (Option Nat)
  ops_registration_allowed : Bool
  reg_hooks_arr : List (Option NexusHook)
  bg_kill_switch : Bool
deriving DecidableEq, Repr

/-- Modelled from the spec: the body of the Nexus constructor (declared
nexus.h lines 65-66, body not in the given sources).  Per the spec, a
drop probability outside [0, 0.95] and a worker count above the fixed
maximum are rejected (the header documents `@throw runtime_error if
Nexus creation fails`); construction failure is the `Except.error`
branch.  On success the state holds the in-class initializers that ARE
in the header: `ops_registration_allowed = true` (line 127) and
`reg_hooks_arr` all-null (line 131), with the kill switch off. -/
def Nexus.construct (cfg : NexusConfig) : Except String NexusState :=
  if cfg.udp_drop_prob < 0 then Except.error "invalid udp_drop_prob"
  else if kMaxUdpDropProb < cfg.udp_drop_prob then Except.error "udp_drop_prob too high"
  else if cfg.kMaxBgThreads < cfg.num_bg_threads then Except.error "too many bg threads"
  else Except.ok
    { cfg := cfg
      ops_arr := List.replicate cfg.kMaxReqTypes none
      ops_registration_allowed := true
      reg_hooks_arr := List.replicate (cfg.kMaxAppTid + 1) none
      bg_kill_switch := false }

/-- Modelled from the spec: the body of `Nexus::app_tid_exists`
(declared nexus.h line 74, body not in the given sources).  Per the
spec it locks `nexus_lock`, checks that the slot for `app_tid` is
non-null, unlocks, and returns the boolean.  The lock use is returned
alongside the boolean as the number of lock-acquire/release pairs the
call performs internally. -/
def app_tid_exists (st : NexusState) (app_tid : Nat) : Bool × Nat :=
  ((st.reg_hooks_arr.getD app_tid none).isSome, 1)

/-- The wiring of a hook performed at registration: the Nexus fills the
hook's `bg_req_list_arr` slots with references to the live worker
queues, one per background worker.  Modelled as recording the worker
ids `0 .. num_bg_threads - 1`; the hook's identity and queues are
untouched. -/
def wireHook (st : NexusState) (hook : NexusHook) : NexusHook :=
  { hook with bg_req_list_arr := List.range st.cfg.num_bg_threads }

/-- Modelled from the spec: the body of `Nexus::register_hook`
(declared nexus.h line 77, body not in the given sources).  Its C++
return type is `void`, modelled as `Unit` in the second component.
Per the spec it acquires `nexus_lock`; if the identity slot is already
occupied the call fails and the registry is unchanged; otherwise it
stores the hook, permanently sets `ops_registration_allowed = false`,
and wires the hook's per-worker submission references. -/
def register_hook (st : NexusState) (hook : NexusHook) : NexusState × Unit :=
  if (st.reg_hooks_arr.getD hook.app_tid none).isSome then (st, ())
  else
    ({ st with
        reg_hooks_arr := st.reg_hooks_arr.set hook.app_tid (some (wireHook st hook))
        ops_registration_allowed := false }, ())

/-- Modelled from the spec: the body of `Nexus::unregister_hook`
(declared nexus.h line 80, body not in the given sources).  Its C++
return type is `void`, modelled as `Unit`.  Per the spec it acquires
`nexus_lock` and removes the hook from its slot; if the slot is not
occupied the call fails and the registry is unchanged. -/
def unregister_hook (st : NexusState) (hook : NexusHook) : NexusState × Unit :=
  if (st.reg_hooks_arr.getD hook.app_tid none).isSome then
    ({ st with reg_hooks_arr := st.reg_hooks_arr.set hook.app_tid none }, ())
  else (st, ())

/-- The status returned by `register_ops`.  The source signature
(nexus.h line 91) returns `int`, documented `0 on success, errno on
failure`; the spec names the two distinct failures
`InvalidRequestType` and `RegistrationClosed`.  Distinct errno values
are modelled as distinct constructors. -/
inductive RegisterOpsStatus where
  | ok
  | invalidRequestType
  | registrationClosed
deriving DecidableEq, Repr

/-- Modelled from the spec: the body of `Nexus::register_ops` (declared
nexus.h line 91, body not in the given sources).  Per the spec the
preconditions are that `req_type` is within the valid range and
`ops_registration_allowed` is still true; each violation fails with its
distinct error and leaves the registry unchanged.  On success the
handler is stored in `ops_arr` and the call returns success. -/
def register_ops (st : NexusState) (req_type : Nat) (app_ops : Nat) :
    NexusState × RegisterOpsStatus :=
  if st.cfg.kMaxReqTypes ≤ req_type then (st, RegisterOpsStatus.invalidRequestType)
  else if st.ops_registration_allowed = false then (st, RegisterOpsStatus.registrationClosed)
  else ({ st with ops_arr := st.ops_arr.set req_type (some app_ops) }, RegisterOpsStatus.ok)

/-- One operation invocable on a live Nexus by Rpc threads: the four
member functions whose effect on the Nexus state is modelled above. -/
inductive NexusOp where
  | regHook (hook : NexusHook)
  | unregHook (hook : NexusHook)
  | regOps (req_type : Nat) (app_ops : Nat)
  | tidExists (app_tid : Nat)
deriving DecidableEq, Repr

/-- The state reached by performing one operation. -/
def applyOp (st : NexusState) : NexusOp → NexusState
  | NexusOp.regHook hook => (register_hook st hook).1
  | NexusOp.unregHook hook => (unregister_hook st hook).1
  | NexusOp.regOps req_type app_ops => (register_ops st req_type app_ops).1
  | NexusOp.tidExists _ => st

/-- The state reached by performing a sequence of operations. -/
def runOps (st : NexusState) (ops : List NexusOp) : NexusState :=
  ops.foldl applyOp st

/-- Whether an operation is a register_hook call that succeeds in state
`st` (its identity slot is free). -/
def opIsSuccessfulRegHook (st : NexusState) : NexusOp → Bool
  | NexusOp.regHook hook => !(st.reg_hooks_arr.getD hook.app_tid none).isSome
  | _ => false

/-- Background thread context (class BgThreadCtx, nexus.h lines 37-45):
the worker's id, its dedicated request queue, and the shared hook
registry reference (needed for routing completions).  The volatile
kill-switch pointer is modelled separately as the time-indexed value
the thread reads, since the Nexus writes it concurrently. -/
structure BgThreadCtx where
  bg_thread_id : Nat
  bg_req_list : List bg_work_item_t
  reg_hooks_arr : List (Option NexusHook)
deriving DecidableEq, Repr

/-- An observable action of one background-thread loop iteration. -/
inductive BgEvent where
  | sleep (usec : Nat)
  | dequeue (item : bg_work_item_t)
  | invokeHandler (req_type : Nat) (item : bg_work_item_t)
  | appendResponse (app_tid : Nat) (item : bg_work_item_t)
deriving DecidableEq, Repr

/-- `Nexus::bg_thread_func` (nexus.h lines 107-112), translated from
the source:

    volatile bool *bg_kill_switch = bg_thread_ctx->bg_kill_switch;
    while (*bg_kill_switch != true) { usleep(200000); }

The volatile read of the kill switch at iteration `t` is
`kill_switch t` (the Nexus may set it concurrently).  The loop body
performs exactly one `usleep(200000)` and touches nothing else, so each
non-final iteration contributes a `sleep` event and the context passes
through unchanged.  `fuel` bounds the modelled iterations: the result
is `some (texit, ctx, events)` when the loop observes a true switch at
some iteration `texit` within `fuel` checks, `none` otherwise. -/
def bg_thread_func (kill_switch : Nat → Bool) (ctx : BgThreadCtx) :
    Nat → Nat → Option (Nat × BgThreadCtx × List BgEvent)
  | t, 0 => if kill_switch t then some (t, ctx, []) else none
  | t, fuel + 1 =>
    if kill_switch t then some (t, ctx, [])
    else (bg_thread_func kill_switch ctx (t + 1) fuel).map
      (fun r => (r.1, r.2.1, BgEvent.sleep 200000 :: r.2.2))

/-- Whether a trace of operations starting in `st` contains no
register_hook call that succeeds (the permanent closing event for
handler registration). -/
def traceHasNoSuccessfulRegHook (st : NexusState) : List NexusOp → Bool
  | [] => true
  | op :: rest =>
    !(opIsSuccessfulRegHook st op) && traceHasNoSuccessfulRegHook (applyOp st op) rest

/-- `Nexus::get_hostname` (nexus.h lines 99-104), translated from the
source: it asserts that the destination buffer is non-null, then
returns exactly `gethostname(_hostname, kMaxHostnameLen)`.  The
external `gethostname` syscall is an oracle parameter (buffer handle
and length to return code); the null buffer is `none`, and the
assertion firing on it is the `none` result, reached without consulting
the oracle.  `kMaxHostnameLen` lives in common.h (absent from the given
sources) and is passed as a parameter. -/
def get_hostname (kMaxHostnameLen : Nat) (gethostname : Nat → Nat → Int)
    (hostname : Option Nat) : Option Int :=
  match hostname with
  | none => none
  | some buf => some (gethostname buf kMaxHostnameLen)

/-- A concrete configuration used by the evaluation theorems: port
31850, two background workers, zero drop probability, registry bounds
kMaxAppTid = 7 and kMaxReqTypes = 4. -/
def exCfg : NexusConfig :=
  { kMaxAppTid := 7, kMaxReqTypes := 4, kMaxBgThreads := 2,
    mgmt_udp_port := 31850, num_bg_threads := 2, udp_drop_prob := 0 }

/-- The freshly constructed Nexus state for `exCfg` (the value
`Nexus.construct exCfg` succeeds with). -/
def exStFree : NexusState :=
  { cfg := exCfg
    ops_arr := List.replicate 4 none
    ops_registration_allowed := true
    reg_hooks_arr := List.replicate 8 none
    bg_kill_switch := false }

/-- A concrete hook with app TID 3, as built by the NexusHook
constructor. -/
def exHook : NexusHook := NexusHook.init 3

/-- The state after hook 3 registered successfully in the fresh state:
slot 3 is occupied and ops registration is closed. -/
def exStOcc : NexusState := (register_hook exStFree exHook).1

/-- A concrete work item submitted by endpoint 3. -/
def c1_item : bg_work_item_t := { app_tid := 3, session := 55, sslot := 7 }

/-- A concrete background-worker context for worker 0: its dedicated
queue holds the one work item of endpoint 3, and the shared hook
registry has endpoint 3's hook registered with an empty response
queue. -/
def c1_ctx : BgThreadCtx :=
  { bg_thread_id := 0
    bg_req_list := [c1_item]
    reg_hooks_arr := exStOcc.reg_hooks_arr }

/-- A concrete kill-switch history: off at the first check, on from the
second check onward. -/
def c1_kill : Nat → Bool := fun t => decide (1 ≤ t)

/-- A concrete background-worker context with empty queue and empty
registry, for exercising the shutdown theorem. -/
def c6_ctx : BgThreadCtx :=
  { bg_thread_id := 1, bg_req_list := [], reg_hooks_arr := [] }

/-- A concrete kill-switch history for the shutdown theorem: raised
from check 1 onward. -/
def c6_kill : Nat → Bool := fun t => decide (1 ≤ t)

/-- The concrete configuration with a drop probability of 1, above the
0.95 maximum. -/
def exCfgBad : NexusConfig := { exCfg with udp_drop_prob := 1 }

/-- A concrete gethostname oracle that always succeeds (returns 0). -/
def exGethostnameOk : Nat → Nat → Int := fun _ _ => 0

/-- A concrete gethostname oracle that always fails (returns -1). -/
def exGethostnameErr : Nat → Nat → Int := fun _ _ => -1

/-- If the kill switch reads true at check `t0 + fuel`, the loop exits
at some check `texit ≤ t0 + fuel`, the context is returned untouched,
and every event of the run is a 200 ms sleep. -/
theorem bg_thread_func_exits (kill_switch : Nat → Bool) (ctx : BgThreadCtx) :
    ∀ fuel t0, kill_switch (t0 + fuel) = true →
      ∃ texit evs, bg_thread_func kill_switch ctx t0 fuel = some (texit, ctx, evs)
        ∧ texit ≤ t0 + fuel ∧ kill_switch texit = true
        ∧ ∀ e ∈ evs, e = BgEvent.sleep 200000 := by
  intro fuel
  induction fuel with
  | zero =>
    intro t0 h
    rw [Nat.add_zero] at h
    refine ⟨t0, [], ?_, le_refl _, h, by simp⟩
    simp [bg_thread_func, h]
  | succ n ih =>
    intro t0 h
    by_cases h0 : kill_switch t0 = true
    · exact ⟨t0, [], by simp [bg_thread_func, h0], Nat.le_add_right _ _, h0, by simp⟩
    · have h' : kill_switch ((t0 + 1) + n) = true := by
        have : (t0 + 1) + n = t0 + (n + 1) := by omega
        rw [this]; exact h
      obtain ⟨texit, evs, hrun, hle, hkill, hevs⟩ := ih (t0 + 1) h'
      refine ⟨texit, BgEvent.sleep 200000 :: evs, ?_, by omega, hkill, ?_⟩
      · simp [bg_thread_func, h0, hrun]
      · intro e he
        rcases List.mem_cons.mp he with h1 | h2
        · exact h1
        · exact hevs e h2

/-- A slot that reads as `some` is within the array bounds. -/
theorem lt_length_of_getD_some {α : Type} {l : List (Option α)} {i : Nat} {x : α}
    (h : l.getD i none = some x) : i < l.length := by
  by_contra hc
  push_neg at hc
  simp [List.getD, List.getElem?_eq_none hc] at h

/-- Reading back an in-bounds slot just written. -/
theorem getD_set_self {α : Type} {l : List (Option α)} {i : Nat} (a : Option α)
    (h : i < l.length) : (l.set i a).getD i none = a := by
  simp [List.getD, List.getElem?_set_self, h]

/-- Writing one slot leaves every other slot unchanged. -/
theorem getD_set_ne {α : Type} {l : List (Option α)} {i j : Nat} (a : Option α)
    (h : i ≠ j) : (l.set i a).getD j none = l.getD j none := by
  simp [List.getD, List.getElem?_set_ne h]

/-- C6: after the shared shutdown flag `kill_switch` reads true (at
check `T`), the background worker's loop `bg_thread_func` exits within
a bounded number of iterations — at some check `texit ≤ T` where it
observes the flag — its context (in particular its request queue) is
returned untouched, every action it performed was a 200 ms sleep, and
in particular no work item was dequeued after (or indeed before)
observing the flag. -/
theorem C6_shutdown_exits_bounded (kill_switch : Nat → Bool) (ctx : BgThreadCtx)
    (T : Nat) (hT : kill_switch T = true) :
    ∃ texit evs, bg_thread_func kill_switch ctx 0 T = some (texit, ctx, evs)
      ∧ texit ≤ T ∧ kill_switch texit = true
      ∧ (∀ e ∈ evs, e = BgEvent.sleep 200000)
      ∧ (∀ item : bg_work_item_t, BgEvent.dequeue item ∉ evs) := by
  obtain ⟨texit, evs, hrun, hle, hkill, hevs⟩ :=
    bg_thread_func_exits kill_switch ctx T 0 (by simpa using hT)
  refine ⟨texit, evs, hrun, by simpa using hle, hkill, hevs, ?_⟩
  intro item hmem
  have hcontra := hevs _ hmem
  simp at hcontra

/-- Witness for C6 at the concrete context `c6_ctx` and a kill switch
raised from check 1 onward. -/
theorem C6_shutdown_exits_bounded_witness :
    ∃ texit evs, bg_thread_func c6_kill c6_ctx 0 1 = some (texit, c6_ctx, evs)
      ∧ texit ≤ 1 ∧ c6_kill texit = true
      ∧ (∀ e ∈ evs, e = BgEvent.sleep 200000)
      ∧ (∀ item : bg_work_item_t, BgEvent.dequeue item ∉ evs) :=
  C6_shutdown_exits_bounded c6_kill c6_ctx 1 (by decide)

/-- C1 (divergence witness): with the kill switch down at the first
check, a work item of endpoint 3 sitting in worker 0's dedicated queue,
endpoint 3's hook registered with an empty response queue, the
background thread-loop `bg_thread_func` runs an iteration and exits at
the next check — its only action a 200 ms sleep — returning the context
bit-for-bit unchanged: the work item is still in the request queue, was
never dequeued, no handler was invoked, and hook 3's response queue is
still empty.  The source loop (nexus.h lines 107-112) only polls the
kill switch and sleeps; it never dispatches background work. -/
theorem C1_bg_thread_never_dispatches :
    bg_thread_func c1_kill c1_ctx 0 2 = some (1, c1_ctx, [BgEvent.sleep 200000])
    ∧ c1_ctx.bg_req_list = [c1_item]
    ∧ (c1_ctx.reg_hooks_arr.getD 3 none).map NexusHook.bg_resp_list = some [] :=
  ⟨rfl, rfl, rfl⟩

/-- C2 counterexample: `register_hook` and `unregister_hook` return
void (nexus.h lines 77, 80), so no status value reaches the caller.
Concretely, the value returned by the DuplicateIdentity-failing call
`register_hook exStOcc exHook` (slot 3 already occupied) is identical
to the value returned by the succeeding call on the fresh state, and
the value returned by the NotRegistered-failing call
`unregister_hook exStFree exHook` (slot 3 empty) is identical to the
value returned by the succeeding call: the caller cannot read any
DuplicateIdentity / NotRegistered status off the return value. -/
theorem C2_void_return_reports_no_status :
    (exStOcc.reg_hooks_arr.getD 3 none).isSome = true
    ∧ (register_hook exStOcc exHook).2 = (register_hook exStFree exHook).2
    ∧ (register_hook exStOcc exHook).1.reg_hooks_arr = exStOcc.reg_hooks_arr
    ∧ (exStFree.reg_hooks_arr.getD 3 none).isSome = false
    ∧ (unregister_hook exStFree exHook).2 = (unregister_hook exStOcc exHook).2 :=
  ⟨rfl, rfl, rfl, rfl, rfl⟩

/-- C2 (amended): a `register_hook` call on an occupied identity slot
fails, leaving the whole Nexus state unchanged, and an
`unregister_hook` call on an unoccupied identity slot fails, leaving
the whole Nexus state unchanged; both calls return void (`Unit`), so
neither failure is reported to the caller as a returned status value. -/
theorem C2_hook_misuse_leaves_state_unchanged (st : NexusState) (hook : NexusHook) :
    ((st.reg_hooks_arr.getD hook.app_tid none).isSome = true →
      (register_hook st hook).1 = st ∧ (register_hook st hook).2 = ())
    ∧ ((st.reg_hooks_arr.getD hook.app_tid none).isSome = false →
      (unregister_hook st hook).1 = st ∧ (unregister_hook st hook).2 = ()) := by
  constructor
  · intro h
    have h2 : (st.reg_hooks_arr[hook.app_tid]?.getD none).isSome = true := by
      simpa [List.getD] using h
    simp [register_hook, h2]
  · intro h
    have h2 : (st.reg_hooks_arr[hook.app_tid]?.getD none).isSome = false := by
      simpa [List.getD] using h
    simp [unregister_hook, h2]

/-- Witness for the amended C2 on the concrete occupied and fresh
states. -/
theorem C2_hook_misuse_leaves_state_unchanged_witness :
    ((register_hook exStOcc exHook).1 = exStOcc ∧ (register_hook exStOcc exHook).2 = ())
    ∧ ((unregister_hook exStFree exHook).1 = exStFree
        ∧ (unregister_hook exStFree exHook).2 = ()) :=
  ⟨(C2_hook_misuse_leaves_state_unchanged exStOcc exHook).1 rfl,
   (C2_hook_misuse_leaves_state_unchanged exStFree exHook).2 rfl⟩

/-- C3: `register_ops` with `req_type` in range while registration is
still open stores the handler and returns success; an out-of-range
`req_type` fails with the distinct error InvalidRequestType; an
in-range `req_type` after registration has closed fails with the
distinct error RegistrationClosed.  Failing calls leave the state
unchanged.  `hlen` is the construction invariant that the ops array has
`kMaxReqTypes` slots. -/
theorem C3_register_ops_cases (st : NexusState) (req_type app_ops : Nat)
    (hlen : st.ops_arr.length = st.cfg.kMaxReqTypes) :
    (req_type < st.cfg.kMaxReqTypes → st.ops_registration_allowed = true →
      (register_ops st req_type app_ops).2 = RegisterOpsStatus.ok
        ∧ (register_ops st req_type app_ops).1.ops_arr =
            st.ops_arr.set req_type (some app_ops)
        ∧ (register_ops st req_type app_ops).1.ops_arr.getD req_type none = some app_ops)
    ∧ (st.cfg.kMaxReqTypes ≤ req_type →
      (register_ops st req_type app_ops).2 = RegisterOpsStatus.invalidRequestType
        ∧ (register_ops st req_type app_ops).1 = st)
    ∧ (req_type < st.cfg.kMaxReqTypes → st.ops_registration_allowed = false →
      (register_ops st req_type app_ops).2 = RegisterOpsStatus.registrationClosed
        ∧ (register_ops st req_type app_ops).1 = st) := by
  refine ⟨?_, ?_, ?_⟩
  · intro hlt hopen
    have hnle : ¬ st.cfg.kMaxReqTypes ≤ req_type := by omega
    refine ⟨by simp [register_ops, hnle, hopen], by simp [register_ops, hnle, hopen], ?_⟩
    have hb : req_type < st.ops_arr.length := by omega
    simp [register_ops, hnle, hopen, List.getD, List.getElem?_set_self, hb]
  · intro hge
    simp [register_ops, hge]
  · intro hlt hclosed
    have hnle : ¬ st.cfg.kMaxReqTypes ≤ req_type := by omega
    simp [register_ops, hnle, hclosed]

/-- Witness for C3 on the fresh state (open registration) and the
occupied state (closed registration). -/
theorem C3_register_ops_cases_witness :
    ((register_ops exStFree 1 9).2 = RegisterOpsStatus.ok
      ∧ (register_ops exStFree 1 9).1.ops_arr = exStFree.ops_arr.set 1 (some 9)
      ∧ (register_ops exStFree 1 9).1.ops_arr.getD 1 none = some 9)
    ∧ ((register_ops exStFree 4 9).2 = RegisterOpsStatus.invalidRequestType
      ∧ (register_ops exStFree 4 9).1 = exStFree)
    ∧ ((register_ops exStOcc 1 9).2 = RegisterOpsStatus.registrationClosed
      ∧ (register_ops exStOcc 1 9).1 = exStOcc) :=
  ⟨(C3_register_ops_cases exStFree 1 9 rfl).1 (by decide) rfl,
   (C3_register_ops_cases exStFree 4 9 rfl).2.1 (by decide),
   (C3_register_ops_cases exStOcc 1 9 rfl).2.2 (by decide) rfl⟩

/-- Once the ops-registration flag is false, no operation turns it back
on. -/
theorem applyOp_flag_false (st : NexusState) (op : NexusOp)
    (h : st.ops_registration_allowed = false) :
    (applyOp st op).ops_registration_allowed = false := by
  cases op with
  | regHook hook =>
    simp only [applyOp]
    unfold register_hook
    split
    · exact h
    · rfl
  | unregHook hook =>
    simp only [applyOp]
    unfold unregister_hook
    split
    · exact h
    · exact h
  | regOps req_type app_ops =>
    simp only [applyOp]
    unfold register_ops
    split_ifs <;> exact h
  | tidExists i =>
    simp only [applyOp]
    exact h

/-- An operation that is not a succeeding register_hook leaves an open
ops-registration flag open. -/
theorem applyOp_flag_true_of_not_reghook (st : NexusState) (op : NexusOp)
    (h : st.ops_registration_allowed = true)
    (hnot : opIsSuccessfulRegHook st op = false) :
    (applyOp st op).ops_registration_allowed = true := by
  cases op with
  | regHook hook =>
    have hocc : (st.reg_hooks_arr[hook.app_tid]?.getD none).isSome = true := by
      simpa [opIsSuccessfulRegHook, List.getD] using hnot
    simp [applyOp, register_hook, hocc, h]
  | unregHook hook =>
    simp only [applyOp]
    unfold unregister_hook
    split
    · exact h
    · exact h
  | regOps req_type app_ops =>
    simp only [applyOp]
    unfold register_ops
    split_ifs <;> simp_all
  | tidExists i =>
    simp only [applyOp]
    exact h

/-- C4: the ops-registration flag is true at construction; every
succeeding register_hook sets it false; no operation ever sets it back
to true (one step, and along any trace); it stays true along any trace
containing no succeeding register_hook; and once it is false, every
attempted handler-registry mutation fails and leaves the handler
registry untouched. -/
theorem C4_registration_open_lifecycle :
    (∀ cfg st, Nexus.construct cfg = Except.ok st → st.ops_registration_allowed = true)
    ∧ (∀ st hook, (st.reg_hooks_arr.getD hook.app_tid none).isSome = false →
        (register_hook st hook).1.ops_registration_allowed = false)
    ∧ (∀ st op, st.ops_registration_allowed = false →
        (applyOp st op).ops_registration_allowed = false)
    ∧ (∀ st ops, st.ops_registration_allowed = false →
        (runOps st ops).ops_registration_allowed = false)
    ∧ (∀ st ops, st.ops_registration_allowed = true →
        traceHasNoSuccessfulRegHook st ops = true →
        (runOps st ops).ops_registration_allowed = true)
    ∧ (∀ st req_type app_ops, st.ops_registration_allowed = false →
        (register_ops st req_type app_ops).2 ≠ RegisterOpsStatus.ok
          ∧ (register_ops st req_type app_ops).1.ops_arr = st.ops_arr) := by
  refine ⟨?_, ?_, ?_, ?_, ?_, ?_⟩
  · intro cfg st h
    unfold Nexus.construct at h
    split_ifs at h
    all_goals first
    | exact Except.noConfusion h
    | (injection h with h2; subst h2; rfl)
  · intro st hook h
    have h2 : (st.reg_hooks_arr[hook.app_tid]?.getD none).isSome = false := by
      simpa [List.getD] using h
    simp [register_hook, h2]
  · exact fun st op h => applyOp_flag_false st op h
  · intro st ops
    induction ops generalizing st with
    | nil => intro h; exact h
    | cons op rest ih =>
      intro h
      exact ih (applyOp st op) (applyOp_flag_false st op h)
  · intro st ops
    induction ops generalizing st with
    | nil => intro h _; exact h
    | cons op rest ih =>
      intro h htr
      simp only [traceHasNoSuccessfulRegHook, Bool.and_eq_true, Bool.not_eq_true'] at htr
      exact ih (applyOp st op) (applyOp_flag_true_of_not_reghook st op h htr.1) htr.2
  · intro st req_type app_ops h
    unfold register_ops
    split_ifs
    all_goals exact ⟨by simp, rfl⟩

/-- Witness for C4 on concrete states: the freshly constructed state,
a successful registration, and follow-up operations on the closed
state. -/
theorem C4_registration_open_lifecycle_witness :
    exStFree.ops_registration_allowed = true
    ∧ (register_hook exStFree exHook).1.ops_registration_allowed = false
    ∧ (applyOp exStOcc (NexusOp.regOps 1 9)).ops_registration_allowed = false
    ∧ (runOps exStOcc [NexusOp.regOps 1 9, NexusOp.tidExists 3]).ops_registration_allowed = false
    ∧ (runOps exStFree [NexusOp.regOps 1 9]).ops_registration_allowed = true
    ∧ ((register_ops exStOcc 1 9).2 ≠ RegisterOpsStatus.ok
        ∧ (register_ops exStOcc 1 9).1.ops_arr = exStOcc.ops_arr) :=
  ⟨C4_registration_open_lifecycle.1 exCfg exStFree
     (by simp [Nexus.construct, exCfg, exStFree, kMaxUdpDropProb]; norm_num),
   C4_registration_open_lifecycle.2.1 exStFree exHook rfl,
   C4_registration_open_lifecycle.2.2.1 exStOcc (NexusOp.regOps 1 9) rfl,
   C4_registration_open_lifecycle.2.2.2.1 exStOcc [NexusOp.regOps 1 9, NexusOp.tidExists 3] rfl,
   C4_registration_open_lifecycle.2.2.2.2.1 exStFree [NexusOp.regOps 1 9] rfl rfl,
   C4_registration_open_lifecycle.2.2.2.2.2 exStOcc 1 9 rfl⟩

/-- C5: every construction that succeeds stores a drop probability
within [0, kMaxUdpDropProb] — exactly the requested one — and a
requested drop probability above the 0.95 maximum makes construction
fail (it is rejected, not used). -/
theorem C5_drop_prob_at_most_max (cfg : NexusConfig) :
    (∀ st, Nexus.construct cfg = Except.ok st →
      0 ≤ st.cfg.udp_drop_prob ∧ st.cfg.udp_drop_prob ≤ kMaxUdpDropProb
        ∧ st.cfg.udp_drop_prob = cfg.udp_drop_prob)
    ∧ (kMaxUdpDropProb < cfg.udp_drop_prob →
        ∀ st, Nexus.construct cfg ≠ Except.ok st) := by
  constructor
  · intro st h
    unfold Nexus.construct at h
    split_ifs at h with h1 h2 h3
    all_goals first
    | exact Except.noConfusion h
    | (injection h with h4
       subst h4
       exact ⟨le_of_not_lt h1, le_of_not_lt h2, rfl⟩)
  · intro hgt st h
    unfold Nexus.construct at h
    split_ifs at h

/-- Witness for C5: the zero-probability construction succeeds with a
stored probability in range, and the probability-1 construction is
rejected. -/
theorem C5_drop_prob_at_most_max_witness :
    (0 ≤ exStFree.cfg.udp_drop_prob ∧ exStFree.cfg.udp_drop_prob ≤ kMaxUdpDropProb
      ∧ exStFree.cfg.udp_drop_prob = exCfg.udp_drop_prob)
    ∧ Nexus.construct exCfgBad ≠ Except.ok exStFree :=
  ⟨(C5_drop_prob_at_most_max exCfg).1 exStFree
     (by simp [Nexus.construct, exCfg, exStFree, kMaxUdpDropProb]; norm_num),
   (C5_drop_prob_at_most_max exCfgBad).2
     (by norm_num [exCfgBad, exCfg, kMaxUdpDropProb]) exStFree⟩

/-- C7: `app_tid_exists` returns false while the identity's slot is
unoccupied, true immediately after a `register_hook` that succeeds for
that identity, false again immediately after the hook's successful
`unregister_hook`, and internally performs exactly one
acquire/release of the Nexus lock.  `hlen` is the C++ in-bounds
requirement on the identity (the registry array has fixed capacity). -/
theorem C7_app_tid_exists_tracks_registry (st : NexusState) (i : Nat) (hook : NexusHook)
    (hlen : hook.app_tid < st.reg_hooks_arr.length) :
    (st.reg_hooks_arr.getD i none = none → (app_tid_exists st i).1 = false)
    ∧ ((st.reg_hooks_arr.getD hook.app_tid none).isSome = false →
        (app_tid_exists (register_hook st hook).1 hook.app_tid).1 = true)
    ∧ ((st.reg_hooks_arr.getD hook.app_tid none).isSome = true →
        (app_tid_exists (unregister_hook st hook).1 hook.app_tid).1 = false)
    ∧ (app_tid_exists st i).2 = 1 := by
  refine ⟨?_, ?_, ?_, rfl⟩
  · intro h
    unfold app_tid_exists
    rw [h]
    rfl
  · intro h
    have hneg : ¬ (st.reg_hooks_arr.getD hook.app_tid none).isSome = true := by
      rw [h]
      exact Bool.false_ne_true
    unfold register_hook
    rw [if_neg hneg]
    unfold app_tid_exists
    dsimp only
    rw [getD_set_self _ hlen]
    rfl
  · intro h
    unfold unregister_hook
    rw [if_pos h]
    unfold app_tid_exists
    dsimp only
    rw [getD_set_self _ hlen]
    rfl

/-- Witness for C7: on the fresh state, identity 2 does not exist;
identity 3 exists right after its hook registers and no longer exists
right after it unregisters. -/
theorem C7_app_tid_exists_tracks_registry_witness :
    (app_tid_exists exStFree 2).1 = false
    ∧ (app_tid_exists (register_hook exStFree exHook).1 exHook.app_tid).1 = true
    ∧ (app_tid_exists (unregister_hook exStOcc exHook).1 exHook.app_tid).1 = false
    ∧ (app_tid_exists exStFree 2).2 = 1 :=
  ⟨(C7_app_tid_exists_tracks_registry exStFree 2 exHook (by decide)).1 rfl,
   (C7_app_tid_exists_tracks_registry exStFree 2 exHook (by decide)).2.1 rfl,
   (C7_app_tid_exists_tracks_registry exStOcc 2 exHook (by decide)).2.2.1 rfl,
   (C7_app_tid_exists_tracks_registry exStFree 2 exHook (by decide)).2.2.2⟩

/-- C8: a construction that succeeds yields a state whose hook-registry
slots 0 through kMaxAppTid are all null (the array has exactly
kMaxAppTid + 1 slots) and whose ops-registration flag is true. -/
theorem C8_fresh_nexus_registry_empty (cfg : NexusConfig) (st : NexusState)
    (h : Nexus.construct cfg = Except.ok st) :
    (∀ i, i ≤ cfg.kMaxAppTid → st.reg_hooks_arr.getD i none = none)
    ∧ st.ops_registration_allowed = true
    ∧ st.reg_hooks_arr.length = cfg.kMaxAppTid + 1 := by
  unfold Nexus.construct at h
  split_ifs at h
  all_goals first
  | exact Except.noConfusion h
  | (injection h with h2; subst h2;
     exact ⟨fun i _ => by simp [List.getD], rfl, by simp⟩)

/-- Witness for C8 at the concrete configuration: slots 0 and 7 (=
kMaxAppTid) are null and registration is open. -/
theorem C8_fresh_nexus_registry_empty_witness :
    exStFree.reg_hooks_arr.getD 0 none = none
    ∧ exStFree.reg_hooks_arr.getD 7 none = none
    ∧ exStFree.ops_registration_allowed = true
    ∧ exStFree.reg_hooks_arr.length = exCfg.kMaxAppTid + 1 :=
  ⟨(C8_fresh_nexus_registry_empty exCfg exStFree
      (by simp [Nexus.construct, exCfg, exStFree, kMaxUdpDropProb]; norm_num)).1 0 (by decide),
   (C8_fresh_nexus_registry_empty exCfg exStFree
      (by simp [Nexus.construct, exCfg, exStFree, kMaxUdpDropProb]; norm_num)).1 7 (by decide),
   (C8_fresh_nexus_registry_empty exCfg exStFree
      (by simp [Nexus.construct, exCfg, exStFree, kMaxUdpDropProb]; norm_num)).2.1,
   (C8_fresh_nexus_registry_empty exCfg exStFree
      (by simp [Nexus.construct, exCfg, exStFree, kMaxUdpDropProb]; norm_num)).2.2⟩

/-- Whatever one operation does, a slot that still holds a hook
afterwards holds the very hook it held before (operations either leave
a slot alone, fill an empty one, or empty it — they never rewrite an
occupied slot's hook). -/
theorem applyOp_hooks_preserved (st : NexusState) (op : NexusOp) (i : Nat)
    (x : NexusHook) (hb : st.reg_hooks_arr.getD i none = some x) :
    (applyOp st op).reg_hooks_arr.getD i none = some x
    ∨ (applyOp st op).reg_hooks_arr.getD i none = none := by
  cases op with
  | regHook hook =>
    simp only [applyOp]
    unfold register_hook
    split
    · exact Or.inl hb
    · rename_i hocc
      have hne : hook.app_tid ≠ i := by
        intro he
        rw [he] at hocc
        rw [hb] at hocc
        simp at hocc
      dsimp only
      rw [getD_set_ne _ hne]
      exact Or.inl hb
  | unregHook hook =>
    simp only [applyOp]
    unfold unregister_hook
    split
    · by_cases hia : hook.app_tid = i
      · subst hia
        dsimp only
        right
        exact getD_set_self none (lt_length_of_getD_some hb)
      · dsimp only
        rw [getD_set_ne _ hia]
        exact Or.inl hb
    · exact Or.inl hb
  | regOps req_type app_ops =>
    simp only [applyOp]
    unfold register_ops
    split_ifs <;> exact Or.inl hb
  | tidExists j => exact Or.inl hb

/-- C9: a hook's endpoint identity is fixed at construction
(`NexusHook.init a` has identity `a`), the registration-time wiring of
its per-worker references does not touch it, and no Nexus operation
modifies the identity (or anything else) of a hook occupying a registry
slot: if a slot holds a hook before and after an operation, it is the
same hook with the same `app_tid`. -/
theorem C9_hook_identity_immutable :
    (∀ a, (NexusHook.init a).app_tid = a)
    ∧ (∀ st hook, (wireHook st hook).app_tid = hook.app_tid)
    ∧ (∀ st op i h h', st.reg_hooks_arr.getD i none = some h →
        (applyOp st op).reg_hooks_arr.getD i none = some h' →
        h' = h ∧ h'.app_tid = h.app_tid) := by
  refine ⟨fun a => rfl, fun st hook => rfl, ?_⟩
  intro st op i h h' hb ha
  rcases applyOp_hooks_preserved st op i h hb with hsome | hnone
  · rw [ha] at hsome
    injection hsome with he
    exact ⟨he, by rw [he]⟩
  · rw [ha] at hnone
    exact Option.noConfusion hnone

/-- Witness for C9: the constructor fixes identity 5; wiring preserves
identity; and after a register_ops step, slot 3 still holds the same
hook. -/
theorem C9_hook_identity_immutable_witness :
    (NexusHook.init 5).app_tid = 5
    ∧ (wireHook exStFree (NexusHook.init 6)).app_tid = (NexusHook.init 6).app_tid
    ∧ (wireHook exStFree exHook = wireHook exStFree exHook
        ∧ (wireHook exStFree exHook).app_tid = (wireHook exStFree exHook).app_tid) :=
  ⟨C9_hook_identity_immutable.1 5,
   C9_hook_identity_immutable.2.1 exStFree (NexusHook.init 6),
   C9_hook_identity_immutable.2.2 exStOcc (NexusOp.regOps 1 9) 3
     (wireHook exStFree exHook) (wireHook exStFree exHook) (by rfl) (by rfl)⟩

/-- C10: for a non-null destination buffer, `get_hostname` returns
exactly the result of the underlying gethostname call on that buffer
with length kMaxHostnameLen (so, under the syscall's 0-or-minus-1
contract, the result is 0 on success and -1 on error); for the null
buffer the assertion fires before the syscall, so the result is
independent of the syscall oracle, which is never consulted. -/
theorem C10_get_hostname_delegates (len : Nat) (g g2 : Nat → Nat → Int) (buf : Nat) :
    get_hostname len g (some buf) = some (g buf len)
    ∧ get_hostname len g none = none
    ∧ get_hostname len g none = get_hostname len g2 none
    ∧ ((∀ b l, g b l = 0 ∨ g b l = -1) →
        ∀ r, get_hostname len g (some buf) = some r → r = 0 ∨ r = -1) := by
  refine ⟨rfl, rfl, rfl, ?_⟩
  intro hc r hr
  simp [get_hostname] at hr
  rw [← hr]
  exact hc buf len

/-- Witness for C10 with the always-0 and always-minus-1 oracles and a
concrete buffer. -/
theorem C10_get_hostname_delegates_witness :
    get_hostname 64 exGethostnameOk (some 1) = some (exGethostnameOk 1 64)
    ∧ get_hostname 64 exGethostnameOk none = none
    ∧ get_hostname 64 exGethostnameOk none = get_hostname 64 exGethostnameErr none
    ∧ ((0 : Int) = 0 ∨ (0 : Int) = -1) :=
  ⟨(C10_get_hostname_delegates 64 exGethostnameOk exGethostnameErr 1).1,
   (C10_get_hostname_delegates 64 exGethostnameOk exGethostnameErr 1).2.1,
   (C10_get_hostname_delegates 64 exGethostnameOk exGethostnameErr 1).2.2.1,
   (C10_get_hostname_delegates 64 exGethostnameOk exGethostnameErr 1).2.2.2
     (fun _ _ => Or.inl rfl) 0 rfl⟩
